import Mathlib

/-
Verification development for the document-ingestion pipeline
(backend-server-examai).

The development is a shallow embedding of the pipeline's own logic:

* `detect_document_text`      — app/vision_service.py, VisionService.detect_document_text
* `read_ocr_results_from_gcs` — app/vision_service.py, VisionService.read_ocr_results_from_gcs
* `generate_and_store_exam_paper` — app/claude_service.py
* `runTask` / `celeryRun`     — app/tasks.py, process_document_task and its Celery
                                retry wrapper
* `upload_precheck`           — app/main_server.py, the input validation at the top
                                of the /upload handler

External collaborators (the Vision client, the GCS client, the Anthropic client,
MongoDB) are modelled as inputs: each embedded function takes the collaborator's
observable outcome (a response value or a raised-exception message, as an
`Except String _`) as an argument, and the embedded control flow is a line-by-line
translation of the Python.
-/

/-! ## Shared string helpers

Python's `''.join(...)` and `sep.join(...)` are embedded as explicit recursions so
that every proof can proceed by structural induction, and all string comparisons
kernel-reduce. -/

def concatAll : List String → String
  | [] => ""
  | s :: rest => s ++ concatAll rest

def joinWith (sep : String) : List String → String
  | [] => ""
  | [s] => s
  | s :: rest => s ++ sep ++ joinWith sep rest

/-- `endsWithStr s t` embeds Python `s.endswith(t)` (and `str.endswith(".json")` in
particular) on ordinary strings. -/
def endsWithStr (s t : String) : Bool :=
  s.data.reverse.take t.data.length == t.data.reverse

/-- The characters of `s` with all whitespace removed.  Two strings are "equal up to
whitespace normalization" exactly when their `wsFree` lists coincide. -/
def wsFree (s : String) : List Char := s.data.filter (fun c => !c.isWhitespace)

/-! ## Vision API data (synchronous image path)

The protobuf response of `client.document_text_detection`, restricted to the fields
the code reads: `full_text_annotation` (optional; carries `text` and `pages` with the
block / paragraph / word / symbol nesting) and `error.message` (empty string when the
response carries no error). -/

structure VSymbol where
  text : String
deriving DecidableEq

structure VWord where
  symbols : List VSymbol
  confidence : Rat
  bounding_box : List (Int × Int)
deriving DecidableEq

structure VParagraph where
  words : List VWord
  confidence : Rat
deriving DecidableEq

structure VBlock where
  paragraphs : List VParagraph
  confidence : Rat
deriving DecidableEq

structure VPage where
  blocks : List VBlock
  width : Int
  height : Int
deriving DecidableEq

structure FullTextAnno where
  text : String
  pages : List VPage
deriving DecidableEq

structure VisionResponse where
  textAnno : Option FullTextAnno
  errorMessage : String
deriving DecidableEq

/-! ## The canonical Extraction Result shape

Both OCR paths build the same nested dict shape
page `{blocks, width, height}` → block `{text, confidence, paragraphs}` →
paragraph `{text, confidence, words}` → word `{text, confidence, bounding_box}`.
The asynchronous path reads the values back from JSON with `.get`, so `confidence`,
the vertex coordinates and the page `width`/`height` may be `null` there; the shared
embedded type therefore uses `Option` at those positions, and the synchronous path
always fills them with `some`. -/

structure WordData where
  text : String
  confidence : Option Rat
  bounding_box : List (Option Int × Option Int)
deriving DecidableEq

structure ParagraphData where
  text : String
  confidence : Option Rat
  words : List WordData
deriving DecidableEq

structure BlockData where
  text : String
  confidence : Option Rat
  paragraphs : List ParagraphData
deriving DecidableEq

structure PageData where
  blocks : List BlockData
  width : Option Int
  height : Option Int
deriving DecidableEq

structure ExtractionResult where
  full_text : String
  structured_data : List PageData
  error : Option String
deriving DecidableEq

/-! ## vision_service.detect_document_text (synchronous image path) -/

def vWordToData (w : VWord) : WordData :=
  { text := concatAll (w.symbols.map (·.text))
    confidence := some w.confidence
    bounding_box := w.bounding_box.map (fun v => (some v.1, some v.2)) }

def vParagraphToData (p : VParagraph) : ParagraphData :=
  { text := concatAll ((p.words.flatMap (·.symbols)).map (·.text))
    confidence := some p.confidence
    words := p.words.map vWordToData }

def vBlockToData (b : VBlock) : BlockData :=
  { text := concatAll ((b.paragraphs.flatMap (fun p => p.words.flatMap (·.symbols))).map (·.text))
    confidence := some b.confidence
    paragraphs := b.paragraphs.map vParagraphToData }

def vPageToData (pg : VPage) : PageData :=
  { blocks := pg.blocks.map vBlockToData
    width := some pg.width
    height := some pg.height }

/-- `VisionService.detect_document_text`.  The whole body sits in a
`try`/`except Exception`, so the provider call is passed in as
`Except String VisionResponse`: `.error e` is a raised exception with message `e`,
and the handler returns the empty result with `error = str(e)`. -/
def detect_document_text (call : Except String VisionResponse) : ExtractionResult :=
  match call with
  | .error e => { full_text := "", structured_data := [], error := some e }
  | .ok response =>
      { full_text :=
          match response.textAnno with
          | some a => a.text
          | none => ""
        structured_data :=
          match response.textAnno with
          | some a => a.pages.map vPageToData
          | none => []
        error := if response.errorMessage = "" then none else some response.errorMessage }

/-! ## Asynchronous PDF path: the JSON result objects written by the provider

`read_ocr_results_from_gcs` navigates each downloaded JSON document with `.get`
defaults, so every level is optional where the code uses `.get`.  A result object
whose download or `json.loads` (or any later access) raises is `malformed`; the two
`except` clauses of the per-blob loop skip it. -/

structure JSymbol where
  text : Option String
deriving DecidableEq

structure JWord where
  symbols : List JSymbol
  confidence : Option Rat
  vertices : List (Option Int × Option Int)
deriving DecidableEq

structure JParagraph where
  words : List JWord
  confidence : Option Rat
deriving DecidableEq

structure JBlock where
  paragraphs : List JParagraph
  confidence : Option Rat
deriving DecidableEq

structure JPage where
  blocks : List JBlock
  width : Option Int
  height : Option Int
deriving DecidableEq

structure JAnno where
  text : String
  pages : Option (List JPage)
deriving DecidableEq

structure JResponse where
  textAnno : Option JAnno
deriving DecidableEq

inductive BlobParse where
  | malformed
  | parsed (responses : List JResponse)
deriving DecidableEq

/-- One storage object listed under the OCR destination address, in the order the
store listed it: its key and what downloading-and-parsing it yields. -/
structure GcsBlob where
  name : String
  parse : BlobParse
deriving DecidableEq

def jWordToData (w : JWord) : WordData :=
  { text := concatAll (w.symbols.map (fun s => s.text.getD ""))
    confidence := w.confidence
    bounding_box := w.vertices }

def jParagraphToData (p : JParagraph) : ParagraphData :=
  { text := concatAll (p.words.flatMap (fun w => w.symbols.map (fun s => s.text.getD "")))
    confidence := p.confidence
    words := p.words.map jWordToData }

def jBlockToData (b : JBlock) : BlockData :=
  { text := concatAll (b.paragraphs.flatMap (fun p => p.words.flatMap (fun w => w.symbols.map (fun s => s.text.getD ""))))
    confidence := b.confidence
    paragraphs := b.paragraphs.map jParagraphToData }

def jPageToData (pg : JPage) : PageData :=
  { blocks := pg.blocks.map jBlockToData
    width := pg.width
    height := pg.height }

/-- The texts appended to `full_text_combined` while processing one result object:
one entry per response that carries a `fullTextAnnotation`; a malformed object
contributes nothing. -/
def blobTexts (b : GcsBlob) : List String :=
  match b.parse with
  | .malformed => []
  | .parsed rs => rs.filterMap (fun r => r.textAnno.map (·.text))

/-- The pages one response contributes to `pages_data_combined`: nothing without a
`fullTextAnnotation`, nothing when that object has no `pages` key, else the
reconstructed page dicts. -/
def respPages (r : JResponse) : List PageData :=
  match r.textAnno with
  | none => []
  | some a =>
      match a.pages with
      | none => []
      | some ps => ps.map jPageToData

/-- The pages appended to `pages_data_combined` while processing one result object. -/
def blobPages (b : GcsBlob) : List PageData :=
  match b.parse with
  | .malformed => []
  | .parsed rs => rs.flatMap respPages

/-- `json_blobs = [b for b in blobs if b.name.endswith(".json")]`. -/
def jsonResultBlobs (blobs : List GcsBlob) : List GcsBlob :=
  blobs.filter (fun b => endsWithStr b.name ".json")

/-- `VisionService.read_ocr_results_from_gcs`, applied to the list of storage objects
under the destination address in the order the store listed them.  The code never
reorders `json_blobs`; the final `error` of the combining loop is the literal `None`. -/
def read_ocr_results_from_gcs (blobs : List GcsBlob) : ExtractionResult :=
  let json_blobs := jsonResultBlobs blobs
  if json_blobs.isEmpty then
    { full_text := "", structured_data := [], error := some "No OCR result files found." }
  else
    { full_text := joinWith "\n" (json_blobs.flatMap blobTexts)
      structured_data := json_blobs.flatMap blobPages
      error := none }

/-! ## Sorting by storage key

§4.2 of the spec asks for result objects to be ordered by storage key before
concatenation.  `nameLe` is byte-wise lexicographic order on keys, and `sortByName`
is insertion sort by it; `ascendingKeyJoin` is the spec-side reading of the final
`full_text` (a comparison definition written from the spec's words, to be measured
against `read_ocr_results_from_gcs`). -/

def charLe (a b : Char) : Bool := a.toNat ≤ b.toNat

def nameLeL : List Char → List Char → Bool
  | [], _ => true
  | _ :: _, [] => false
  | a :: as, b :: bs => if a = b then nameLeL as bs else charLe a b

def nameLe (a b : String) : Bool := nameLeL a.data b.data

def insertByName (b : GcsBlob) : List GcsBlob → List GcsBlob
  | [] => [b]
  | c :: cs => if nameLe b.name c.name then b :: c :: cs else c :: insertByName b cs

def sortByName : List GcsBlob → List GcsBlob
  | [] => []
  | b :: bs => insertByName b (sortByName bs)

/-- Spec-side definition: the newline-join of per-result-object texts in ascending
storage-key order. -/
def ascendingKeyJoin (blobs : List GcsBlob) : String :=
  joinWith "\n" ((sortByName (jsonResultBlobs blobs)).flatMap blobTexts)

/-- The result objects under the destination address that parse successfully. -/
def successfullyParsed (blobs : List GcsBlob) : List GcsBlob :=
  (jsonResultBlobs blobs).filter (fun b =>
    match b.parse with
    | .malformed => false
    | .parsed _ => true)

/-! ## claude_service.generate_and_store_exam_paper (Paper-Generation Gateway)

The model reply is parsed by `json.loads` after stripping the code fences, so the
parsed value is an arbitrary JSON value; `JVal` embeds it, and `pyTruthy` is Python
truthiness (the `if structured_response:` guard). -/

inductive JVal where
  | jnull
  | jbool (b : Bool)
  | jnum (q : Rat)
  | jstr (s : String)
  | jarr (items : List JVal)
  | jobj (fields : List (String × JVal))

def pyTruthy : JVal → Bool
  | .jnull => false
  | .jbool b => b
  | .jnum q => decide (q ≠ 0)
  | .jstr s => decide (s ≠ "")
  | .jarr items => !items.isEmpty
  | .jobj fields => !fields.isEmpty

/-- Observable outcomes of the three external calls `generate_and_store_exam_paper`
makes: the Anthropic request (raises `anthropic.APIError` on provider failure), the
`json.loads` of the fence-stripped reply (raises on malformed JSON), and the
`insert_one` into the exam-paper collection (yields the inserted record id). -/
structure ClaudeEnv where
  api : Except String Unit
  parsed : Except String JVal
  insertRes : Except String String

/-- `ClaudeService.generate_and_store_exam_paper`.  A `json.loads` failure raises
`ValueError("Invalid JSON response from Claude: ...")`, which the generic handler
re-raises as `RuntimeError("Failed to generate or store exam paper: ...")`; an
`anthropic.APIError` becomes `RuntimeError("Claude API request failed: ...")`.
On success the function returns the parsed dict itself (`structured_response`),
not the inserted id. -/
def generate_and_store_exam_paper (env : ClaudeEnv) : Except String JVal :=
  match env.api with
  | .error e => .error ("Claude API request failed: " ++ e)
  | .ok _ =>
      match env.parsed with
      | .error e => .error ("Failed to generate or store exam paper: Invalid JSON response from Claude: " ++ e)
      | .ok v =>
          if pyTruthy v then
            match env.insertRes with
            | .error e => .error ("Failed to generate or store exam paper: " ++ e)
            | .ok _ => .ok v
          else
            .error "Failed to generate or store exam paper: Failed to extract valid JSON from Claude response."

/-! ## tasks.process_document_task (Job Orchestrator worker) -/

/-- `os.path.splitext(name)[1].lower()`: the extension starts at the last dot,
except that a basename consisting only of leading dots before it has no extension. -/
def splitextExt (s : String) : String :=
  match s.data.reverse.findIdx? (· = '.') with
  | none => ""
  | some k =>
      let i := s.data.length - 1 - k
      if (s.data.take i).all (· = '.') then ""
      else ⟨(s.data.drop i).map Char.toLower⟩

def imageExts : List String := [".jpg", ".jpeg", ".png", ".gif", ".bmp", ".tiff"]

/-- Python attribute access `obj.id` on a value decoded from JSON.  `json.loads`
yields dict, list, str, int/float, bool or None, none of which has an `id`
attribute, so the access raises `AttributeError`. -/
def pyAttrId (_v : JVal) : Except String JVal :=
  .error "AttributeError: object has no attribute id"

/-- `str(x)` for the unreachable arm of the `exam_paper_id` conditional (reaching it
would require `pyAttrId` to succeed). -/
def pyStrOf : JVal → String
  | .jnull => "None"
  | .jbool b => if b then "True" else "False"
  | .jnum q => toString q
  | .jstr s => s
  | .jarr _ => "<list>"
  | .jobj _ => "<dict>"

/-- `str(generated_exam_paper.id) if generated_exam_paper and generated_exam_paper.id
else None`: Python first evaluates the truthiness of the paper, then — still inside
the condition — the attribute access `generated_exam_paper.id`, which raises. -/
def examPaperIdField (paper : JVal) : Except String (Option String) :=
  if pyTruthy paper then
    match pyAttrId paper with
    | .error e => .error e
    | .ok idv => .ok (if pyTruthy idv then some (pyStrOf idv) else none)
  else
    .ok none

/-- Outcome of `gcs_service.upload_file` as the task reads it: the `success` flag and
the `message` used in the failure path. -/
structure UploadOutcome where
  success : Bool
  message : String
deriving DecidableEq

/-- Observable outcomes of the external calls one execution of
`process_document_task` can make.  `pdfOp` is `process_pdf_from_gcs`
(`.ok` = status `"completed"`, `.error e` = status `"failed"` with that error);
`pdfBlobs` is what the store lists under the OCR output destination;
`image` is the `document_text_detection` call; `gcsInputUri` is the
`gs://bucket/key` address derived from the timestamp/disambiguator/filename. -/
structure TaskEnv where
  upload : UploadOutcome
  gcsInputUri : String
  pdfOp : Except String Unit
  pdfBlobs : List GcsBlob
  image : Except String VisionResponse
  claude : ClaudeEnv

/-- The dict returned on the task's success path. -/
structure SuccessPayload where
  status : String
  message : String
  original_filename : String
  gcs_path : String
  extracted_text_length : Nat
  exam_paper_id : Option String
deriving DecidableEq

inductive TaskOutcome where
  | ok (payload : SuccessPayload)
  | failed (message : String) (original_filename : String)
deriving DecidableEq

/-- The exception Celery's `self.retry(...)` raises.  `celery.exceptions.Retry`
derives from `Exception` (via `TaskPredicate`). -/
inductive CeleryExc where
  | retrySignal (countdown : Nat)

def selfRetry (countdown : Nat) : CeleryExc := .retrySignal countdown

/-- The task's `except Exception as e` block: it executes
`raise self.retry(exc=e, countdown=60)`, but that raises `celery.exceptions.Retry`
— itself a subclass of `Exception` — inside the inner `try`, whose
`except Exception as retry_e` catches it.  The handler therefore always falls
through to returning the failed payload, and the retry signal never escapes. -/
def handleException (e fn : String) : TaskOutcome :=
  match selfRetry 60 with
  | .retrySignal _ => .failed ("Processing failed: " ++ e) fn

/-- The OCR stage of `process_document_task`: route on the lowercased extension.
The PDF branch copies `full_text` (and `error`) out of the read-back and does not
check the copied `error`; the image branch raises when `error` is set; any other
extension raises the unsupported-type error. -/
def ocrStep (env : TaskEnv) (fileExt : String) : Except String String :=
  if fileExt = ".pdf" then
    match env.pdfOp with
    | .ok _ => .ok (read_ocr_results_from_gcs env.pdfBlobs).full_text
    | .error e => .error ("PDF OCR operation failed: " ++ e)
  else if fileExt ∈ imageExts then
    match (detect_document_text env.image).error with
    | some err => .error ("Image OCR failed: " ++ err)
    | none => .ok (detect_document_text env.image).full_text
  else
    .error "Unsupported file type for OCR. Only images and PDFs are supported."

/-- One execution of the body of `process_document_task`.  The second component
records whether the generation stage (`generate_and_store_exam_paper`) was invoked. -/
def runTask (env : TaskEnv) (original_filename : String) : TaskOutcome × Bool :=
  let fileExt := splitextExt original_filename
  if env.upload.success = false then
    (handleException ("GCS upload failed: " ++ env.upload.message) original_filename, false)
  else
    match ocrStep env fileExt with
    | .error e => (handleException e original_filename, false)
    | .ok fullText =>
        if fullText ≠ "" then
          match generate_and_store_exam_paper env.claude with
          | .error e => (handleException e original_filename, true)
          | .ok paper =>
              match examPaperIdField paper with
              | .error e => (handleException e original_filename, true)
              | .ok idOpt =>
                  (.ok { status := "success"
                         message := "File processed, OCR completed, and exam paper generated."
                         original_filename := original_filename
                         gcs_path := env.gcsInputUri
                         extracted_text_length := fullText.length
                         exam_paper_id := idOpt }, true)
        else
          (handleException "No text extracted from OCR to send to Claude." original_filename, false)

/-- What one attempt of the task hands back to the Celery worker: a returned value,
or a Retry signal escaping the body. -/
inductive BodySignal where
  | returned (outcome : TaskOutcome × Bool)
  | retryAfter (countdown : Nat)

/-- The task body never lets the Retry signal escape (see `handleException`), so
every attempt returns. -/
def taskBody (env : TaskEnv) (fn : String) : BodySignal :=
  .returned (runTask env fn)

/-- The Celery worker loop for a task declared with `max_retries = 3`,
`default_retry_delay = 60`: re-execute the body only when a Retry signal escapes
it, counting attempts and accumulating backoff seconds. -/
def celeryExecute (env : TaskEnv) (fn : String) : Nat → Nat → Nat → (TaskOutcome × Bool) × Nat × Nat
  | 0, attempts, backoff => ((.failed "MaxRetriesExceededError" fn, false), attempts, backoff)
  | fuel + 1, attempts, backoff =>
      match taskBody env fn with
      | .returned o => (o, attempts + 1, backoff)
      | .retryAfter c => celeryExecute env fn fuel (attempts + 1) (backoff + c)

/-- Run the task under Celery: at most 1 initial attempt plus `max_retries = 3`. -/
def celeryRun (env : TaskEnv) (fn : String) : (TaskOutcome × Bool) × Nat × Nat :=
  celeryExecute env fn 4 0 0

/-! ## main_server.upload_file: the submission guard -/

/-- The validation at the top of the `/upload` handler, before any processing:
`if not file.filename: raise HTTPException(400, "No file provided")`.  A missing
filename is modelled as `""` (Python `not` treats `None` and `""` alike).  The byte
buffer is passed in but the guard never looks at it. -/
def upload_precheck (filename : String) (_fileBytes : List Nat) : Option String :=
  if filename = "" then some "No file provided" else none

/-! ## Derived text collections and invariant vocabulary -/

/-- The word texts of one page of `structured_data`, in order. -/
def wordTextsOfPage (p : PageData) : List String :=
  p.blocks.flatMap (fun b => b.paragraphs.flatMap (fun pa => pa.words.map (·.text)))

/-- The in-order concatenation of the text of every word in every paragraph in every
block in every page of `structured_data` (the derivation §3 of the spec demands of
`full_text`). -/
def allWordsText (sd : List PageData) : String :=
  concatAll (sd.flatMap wordTextsOfPage)

/-- All symbol texts of a synchronous-response page, in reading order. -/
def vPageSymbolTexts (pg : VPage) : List String :=
  pg.blocks.flatMap (fun b =>
    b.paragraphs.flatMap (fun pa =>
      pa.words.flatMap (fun w => w.symbols.map (·.text))))

/-- The provider contract for a synchronous `fullTextAnnotation`: its rendered `text`
agrees with its own symbols up to whitespace normalization. -/
def annoCoherent (a : FullTextAnno) : Prop :=
  wsFree a.text = wsFree (concatAll (a.pages.flatMap vPageSymbolTexts))

/-- All symbol texts of an asynchronous result-object page, in reading order. -/
def jPageSymbolTexts (pg : JPage) : List String :=
  pg.blocks.flatMap (fun b =>
    b.paragraphs.flatMap (fun pa =>
      pa.words.flatMap (fun w => w.symbols.map (fun s => s.text.getD ""))))

/-- The provider contract for an asynchronous `fullTextAnnotation` object. -/
def jAnnoCoherent (a : JAnno) : Prop :=
  wsFree a.text = wsFree (concatAll ((a.pages.getD []).flatMap jPageSymbolTexts))

/-! ## Embedding a synchronous response as asynchronous result-object JSON

Used to show the asynchronous path reproduces the synchronous nested shape: these
translate a protobuf response into the JSON the provider writes for it. -/

def vSymbolToJ (s : VSymbol) : JSymbol := { text := some s.text }

def vWordToJ (w : VWord) : JWord :=
  { symbols := w.symbols.map vSymbolToJ
    confidence := some w.confidence
    vertices := w.bounding_box.map (fun v => (some v.1, some v.2)) }

def vParagraphToJ (p : VParagraph) : JParagraph :=
  { words := p.words.map vWordToJ
    confidence := some p.confidence }

def vBlockToJ (b : VBlock) : JBlock :=
  { paragraphs := b.paragraphs.map vParagraphToJ
    confidence := some b.confidence }

def vPageToJ (pg : VPage) : JPage :=
  { blocks := pg.blocks.map vBlockToJ
    width := some pg.width
    height := some pg.height }

/-! ## Failure-stage vocabulary

`process_document_task` signals the failed stage only through the exception message
wrapped into the failed payload; these are exactly the messages raised by its OCR
stage (classification, the two extraction paths, and the empty-text check). -/

def isOcrStageFailure : TaskOutcome → Prop
  | .ok _ => False
  | .failed m _ =>
      m = "Processing failed: No text extracted from OCR to send to Claude." ∨
      m = "Processing failed: Unsupported file type for OCR. Only images and PDFs are supported." ∨
      (∃ e, m = "Processing failed: Image OCR failed: " ++ e) ∨
      (∃ e, m = "Processing failed: PDF OCR operation failed: " ++ e)

/-! ## Concrete instances used by counterexamples and witnesses -/

/-- A result object whose single response carries the given text and no pages. -/
def respWithText (t : String) : JResponse :=
  { textAnno := some { text := t, pages := some [] } }

/-- Two well-formed result objects listed by the store in descending key order. -/
def c1Blobs : List GcsBlob :=
  [ { name := "ocr_results/run/output-2.json", parse := .parsed [respWithText "B"] },
    { name := "ocr_results/run/output-1.json", parse := .parsed [respWithText "A"] } ]

/-- The same two result objects listed in ascending key order. -/
def c1SortedBlobs : List GcsBlob :=
  [ { name := "ocr_results/run/output-1.json", parse := .parsed [respWithText "A"] },
    { name := "ocr_results/run/output-2.json", parse := .parsed [respWithText "B"] } ]

/-- A listing holding exactly one result object, which is malformed. -/
def c5Blobs : List GcsBlob :=
  [ { name := "ocr_results/run/output-1.json", parse := .malformed } ]

/-- A transient upload failure: the GCS put raises a network-class error on the
first attempt. -/
def c3Env : TaskEnv :=
  { upload := { success := false, message := "connection reset by peer" }
    gcsInputUri := "gs://bucket/20250101_000000_abcd1234_doc.pdf"
    pdfOp := .ok ()
    pdfBlobs := []
    image := .error "not invoked"
    claude := { api := .ok (), parsed := .error "not invoked", insertRes := .error "not invoked" } }

/-- A well-formed exam paper as parsed from the model reply. -/
def c4Paper : JVal :=
  .jobj [("infront_page", .jobj [("title", .jstr "University of Alathur")]),
         ("questions_data", .jobj [("num_of_section", .jnum 2)])]

/-- A fully successful environment: upload succeeds, the image OCR recognizes
"HELLO", the model reply parses, and the insert yields a record id. -/
def c4Env : TaskEnv :=
  { upload := { success := true, message := "File uploaded successfully" }
    gcsInputUri := "gs://bucket/20250101_000000_abcd1234_scan.png"
    pdfOp := .ok ()
    pdfBlobs := []
    image := .ok { textAnno := some { text := "HELLO", pages := [] }, errorMessage := "" }
    claude := { api := .ok (), parsed := .ok c4Paper, insertRes := .ok "665f1c2ea4b0d1e2f3a4b5c6" } }

/-- A successful upload followed by an image OCR response with no detected text. -/
def c2EnvW : TaskEnv :=
  { upload := { success := true, message := "File uploaded successfully" }
    gcsInputUri := "gs://bucket/20250101_000000_abcd1234_blank.png"
    pdfOp := .ok ()
    pdfBlobs := []
    image := .ok { textAnno := none, errorMessage := "" }
    claude := { api := .ok (), parsed := .error "not invoked", insertRes := .error "not invoked" } }

/-- A one-word synchronous page: one block, one paragraph, one word with symbols
`H`, `I`, all confidences 1 and an empty bounding box. -/
def c8VPage : VPage :=
  ⟨[⟨[⟨[⟨[⟨"H"⟩, ⟨"I"⟩], 1, []⟩], 1⟩], 1⟩], 100, 100⟩

/-- A one-word synchronous response whose annotation text matches its symbols. -/
def c8Resp : VisionResponse :=
  ⟨some ⟨"HI\n", [c8VPage]⟩, ""⟩

/-- A one-word asynchronous result-object page with symbols `O`, `K`. -/
def c8JPage : JPage :=
  ⟨[⟨[⟨[⟨[⟨some "O"⟩, ⟨some "K"⟩], some 1, []⟩], some 1⟩], some 1⟩], some 100, some 100⟩

/-- A one-word asynchronous result object whose annotation text matches its symbols. -/
def c8Blobs : List GcsBlob :=
  [⟨"ocr_results/run/output-1.json", .parsed [⟨some ⟨"OK\n", some [c8JPage]⟩⟩]⟩]

/-! ## Helper lemmas -/

theorem concatAll_append (l l' : List String) :
    concatAll (l ++ l') = concatAll l ++ concatAll l' := by
  induction l with
  | nil => simp [concatAll]
  | cons s rest ih => simp [concatAll, ih, String.append_assoc]

theorem wsFree_append (s t : String) : wsFree (s ++ t) = wsFree s ++ wsFree t := by
  simp [wsFree, String.data_append, List.filter_append]

theorem wsFree_concatAll (l : List String) :
    wsFree (concatAll l) = l.flatMap wsFree := by
  induction l with
  | nil => rfl
  | cons s rest ih => simp [concatAll, wsFree_append, ih]

theorem wsFree_joinWith_nl (l : List String) :
    wsFree (joinWith "\n" l) = l.flatMap wsFree := by
  induction l with
  | nil => rfl
  | cons s rest ih =>
      cases rest with
      | nil => simp [joinWith, wsFree]
      | cons t rest' =>
          have hnl : wsFree "\n" = [] := rfl
          simp [joinWith] at ih ⊢
          rw [wsFree_append, wsFree_append, hnl, ih]
          simp

theorem flatMap_congr_on {α β : Type} (l : List α) (g h : α → List β)
    (H : ∀ x ∈ l, g x = h x) : l.flatMap g = l.flatMap h := by
  induction l with
  | nil => rfl
  | cons x rest ih =>
      simp only [List.flatMap_cons]
      rw [H x (by simp), ih (fun y hy => H y (by simp [hy]))]

theorem flatMap_wsFree_concat {α : Type} (l : List α) (f : α → List String) :
    (l.map (fun x => concatAll (f x))).flatMap wsFree = (l.flatMap f).flatMap wsFree := by
  induction l with
  | nil => rfl
  | cons x rest ih =>
      simp only [List.map_cons, List.flatMap_cons, List.flatMap_append]
      rw [wsFree_concatAll, ih]

/-- The read-back only reports an error in the zero-result-objects branch, whose
`full_text` is empty. -/
theorem read_error_imp_empty_text (blobs : List GcsBlob)
    (h : (read_ocr_results_from_gcs blobs).error ≠ none) :
    (read_ocr_results_from_gcs blobs).full_text = "" := by
  unfold read_ocr_results_from_gcs at *
  cases he : (jsonResultBlobs blobs).isEmpty <;> simp [he] at *

/-! ## C9 -/

/-- C9: the synchronous image-extraction operation is total.  In the embedding
`detect_document_text` is a total function of the provider call's outcome (the
Python body sits entirely inside `try`/`except Exception`), and when the provider
call raises it returns the structured result with empty `full_text`, empty
`structured_data` and `error = str(e)` — no exception reaches the caller. -/
theorem c9_sync_extraction_total (msg : String) :
    detect_document_text (Except.error msg) =
      { full_text := "", structured_data := [], error := some msg } := rfl

/-! ## C7 -/

/-- C7 counterexample: a submission with the non-empty filename `"a.png"` and an
empty byte buffer is not rejected by the pre-job validation, although the claim
says an empty buffer fails with InvalidInput; the claimed equivalence is false. -/
theorem c7_counterexample :
    ¬ ((upload_precheck "a.png" []).isSome ↔ ("a.png" = "" ∨ ([] : List Nat) = [])) := by
  decide

/-- C7 amended: the submission fails fast with the 400 "No file provided" error,
before any processing, if and only if the filename is empty; the byte buffer is
never examined by the guard, so an empty buffer is not rejected. -/
theorem c7_amended (filename : String) (fileBytes : List Nat) :
    (upload_precheck filename fileBytes).isSome ↔ filename = "" := by
  unfold upload_precheck
  split <;> simp_all

/-! ## C10 -/

/-- C10: only storage objects whose names end in ".json" are treated as result
objects; deleting any other object from the listing leaves the reconciled
Extraction Result unchanged — it contributes nothing to `full_text`,
`structured_data` or `error`. -/
theorem c10_only_json_objects (front back : List GcsBlob) (b : GcsBlob)
    (h : endsWithStr b.name ".json" = false) :
    read_ocr_results_from_gcs (front ++ b :: back) =
      read_ocr_results_from_gcs (front ++ back) := by
  unfold read_ocr_results_from_gcs jsonResultBlobs
  simp [List.filter_append, List.filter_cons, h]

/-- C10 witness: a `.txt` object listed next to a result object is ignored. -/
theorem c10_only_json_objects_witness :
    read_ocr_results_from_gcs
        [⟨"ocr_results/run/output-1.json", .parsed [respWithText "A"]⟩,
         ⟨"ocr_results/run/notes.txt", .malformed⟩] =
      read_ocr_results_from_gcs [⟨"ocr_results/run/output-1.json", .parsed [respWithText "A"]⟩] :=
  c10_only_json_objects [⟨"ocr_results/run/output-1.json", .parsed [respWithText "A"]⟩] []
    ⟨"ocr_results/run/notes.txt", .malformed⟩ (by decide)

/-! ## C5 -/

/-- C5 counterexample: with exactly one result object, which is malformed, the set
of successfully parsed result objects is empty, yet the read-back returns
`error = None` — not the non-null error the claim requires for an empty parse set
(and not the "No OCR result files found" error, which is reserved for a listing
with zero `.json` objects). -/
theorem c5_counterexample :
    successfullyParsed c5Blobs = [] ∧ (read_ocr_results_from_gcs c5Blobs).error = none := by
  decide

/-- C5 amended: a malformed individual result object is always skipped (even when no
object parses successfully); the returned Extraction Result carries a non-null error
— always `"No OCR result files found."` — exactly when zero `.json` result objects
are listed, and carries `error = None` whenever at least one `.json` object is
listed, even if every one of them is malformed. -/
theorem c5_amended (blobs : List GcsBlob) (b : GcsBlob) (hb : b.parse = .malformed) :
    blobTexts b = [] ∧ blobPages b = [] ∧
    ((read_ocr_results_from_gcs blobs).error = some "No OCR result files found." ↔
      jsonResultBlobs blobs = []) ∧
    ((read_ocr_results_from_gcs blobs).error = none ↔ jsonResultBlobs blobs ≠ []) := by
  refine ⟨by simp [blobTexts, hb], by simp [blobPages, hb], ?_, ?_⟩ <;>
  · unfold read_ocr_results_from_gcs
    cases he : (jsonResultBlobs blobs).isEmpty <;>
      simp_all [List.isEmpty_eq_true, List.isEmpty_eq_false]

/-- C5 witness: the amended statement at the concrete single-malformed-object
listing. -/
theorem c5_amended_witness :
    blobTexts ⟨"ocr_results/run/output-1.json", .malformed⟩ = [] ∧
    blobPages ⟨"ocr_results/run/output-1.json", .malformed⟩ = [] ∧
    ((read_ocr_results_from_gcs c5Blobs).error = some "No OCR result files found." ↔
      jsonResultBlobs c5Blobs = []) ∧
    ((read_ocr_results_from_gcs c5Blobs).error = none ↔ jsonResultBlobs c5Blobs ≠ []) :=
  c5_amended c5Blobs ⟨"ocr_results/run/output-1.json", .malformed⟩ rfl

/-! ## C1 -/

theorem insertByName_of_le (b : GcsBlob) (l : List GcsBlob)
    (h : ∀ c ∈ l, nameLe b.name c.name = true) : insertByName b l = b :: l := by
  cases l with
  | nil => rfl
  | cons c cs => simp [insertByName, h c (by simp)]

theorem sortByName_of_sorted (l : List GcsBlob)
    (h : l.Pairwise (fun a b => nameLe a.name b.name = true)) : sortByName l = l := by
  induction l with
  | nil => rfl
  | cons b bs ih =>
      rw [sortByName, ih (List.pairwise_cons.mp h).2,
        insertByName_of_le b bs (List.pairwise_cons.mp h).1]

/-- C1 counterexample: the store lists the two result objects in descending key
order; the code joins their texts in listing order and produces `"B\nA"`, while the
ascending-storage-key join the claim requires is `"A\nB"`. -/
theorem c1_counterexample :
    (read_ocr_results_from_gcs c1Blobs).full_text = "B\nA" ∧
    ascendingKeyJoin c1Blobs = "A\nB" ∧
    (read_ocr_results_from_gcs c1Blobs).full_text ≠ ascendingKeyJoin c1Blobs := by
  decide

/-- C1 amended: the reconciled `full_text` is the newline-join of the per-result
texts in the order the store listed the objects; it equals the newline-join in
ascending storage-key order exactly when the listing is already ascending by key
(which is what Cloud Storage's lexicographically ordered listing provides), not for
every listing order. -/
theorem c1_amended (blobs : List GcsBlob)
    (h : blobs.Pairwise (fun a b => nameLe a.name b.name = true)) :
    (read_ocr_results_from_gcs blobs).full_text = ascendingKeyJoin blobs := by
  have hj : (jsonResultBlobs blobs).Pairwise (fun a b => nameLe a.name b.name = true) :=
    h.filter _
  unfold ascendingKeyJoin
  rw [sortByName_of_sorted _ hj]
  unfold read_ocr_results_from_gcs
  cases he : (jsonResultBlobs blobs).isEmpty
  · simp [he]
  · simp_all [List.isEmpty_eq_true, joinWith]

/-- C1 witness: the amended statement at a concrete listing that is ascending by
storage key. -/
theorem c1_amended_witness :
    (read_ocr_results_from_gcs c1SortedBlobs).full_text = ascendingKeyJoin c1SortedBlobs :=
  c1_amended c1SortedBlobs (by decide)

/-! ## C3 -/

/-- C3: evaluation of the retry machinery.  First conjunct: for every environment
and filename — transient failure or not — exactly one attempt executes and the total
backoff is zero seconds, because `raise self.retry(exc=e, countdown=60)` raises
`celery.exceptions.Retry` inside the task's own `except Exception` handler, which
catches it (Retry derives from Exception), so the retry signal never reaches the
worker.  Second conjunct: at the concrete transient failing input (a network-class
GCS upload failure on the first attempt) the job fails immediately rather than being
retried up to 3 attempts with a 60-second backoff as the claim states. -/
theorem c3_no_retry_ever :
    (∀ (env : TaskEnv) (fn : String), (celeryRun env fn).2 = (1, 0)) ∧
    celeryRun c3Env "doc.pdf" =
      ((.failed "Processing failed: GCS upload failed: connection reset by peer" "doc.pdf",
        false), 1, 0) := by
  constructor
  · intro env fn
    rfl
  · rfl

/-! ## C4 -/

theorem generate_ok_truthy (env : ClaudeEnv) (v : JVal)
    (h : generate_and_store_exam_paper env = .ok v) : pyTruthy v = true := by
  obtain ⟨api, parsed, insertRes⟩ := env
  cases api with
  | error e => simp [generate_and_store_exam_paper] at h
  | ok u =>
      cases parsed with
      | error e => simp [generate_and_store_exam_paper] at h
      | ok w =>
          by_cases hw : pyTruthy w = true
          · cases insertRes with
            | error e => simp [generate_and_store_exam_paper, hw] at h
            | ok i =>
                simp [generate_and_store_exam_paper, hw] at h
                subst h
                exact hw
          · simp [generate_and_store_exam_paper, hw] at h

theorem examPaperIdField_truthy (paper : JVal) (h : pyTruthy paper = true) :
    examPaperIdField paper = .error "AttributeError: object has no attribute id" := by
  simp [examPaperIdField, h, pyAttrId]

/-- C4: the claimed SUCCESS payload is unreachable.  First conjunct: every execution
of the task body ends in the failed payload — `generate_and_store_exam_paper`
returns the parsed dict itself, which has no `id` attribute, so the
`exam_paper_id` conditional raises `AttributeError` before the success payload is
built (and when generation is skipped or fails, the task fails earlier).  Second
conjunct: evaluation at the failing input — a `.png` whose OCR recognizes "HELLO",
a model reply that parses, and a successful insert — yields the failed payload,
not SUCCESS with a non-null `exam_paper_id`. -/
theorem c4_success_payload_unreachable :
    (∀ (env : TaskEnv) (fn : String), ∃ m, (runTask env fn).1 = TaskOutcome.failed m fn) ∧
    runTask c4Env "scan.png" =
      (.failed "Processing failed: AttributeError: object has no attribute id" "scan.png",
        true) := by
  constructor
  · intro env fn
    unfold runTask
    by_cases hup : env.upload.success = false
    · rw [if_pos hup]
      exact ⟨_, rfl⟩
    · rw [if_neg hup]
      cases hocr : ocrStep env (splitextExt fn) with
      | error e => exact ⟨_, rfl⟩
      | ok ft =>
          dsimp only
          by_cases hft : ft ≠ ""
          · rw [if_pos hft]
            cases hgen : generate_and_store_exam_paper env.claude with
            | error e => exact ⟨_, rfl⟩
            | ok paper =>
                dsimp only
                rw [examPaperIdField_truthy paper (generate_ok_truthy env.claude paper hgen)]
                exact ⟨_, rfl⟩
          · rw [if_neg hft]
            exact ⟨_, rfl⟩
  · rfl

/-! ## C2 -/

/-- C2: on either extraction path, an empty `full_text` or a non-null `error` in the
resulting Extraction Result makes the job fail with an OCR-stage message, and the
generation stage is never invoked.  (On the image path a set `error` raises
directly; on the PDF path the copied `error` is never checked, but it is non-null
only in the zero-result-objects branch, whose `full_text` is empty, so the job
still fails before generation.) -/
theorem c2_empty_or_error_fails_ocr (env : TaskEnv) (fn : String)
    (hup : env.upload.success = true) :
    (splitextExt fn ∈ imageExts →
      ((detect_document_text env.image).full_text = "" ∨
        (detect_document_text env.image).error ≠ none) →
      isOcrStageFailure (runTask env fn).1 ∧ (runTask env fn).2 = false) ∧
    (splitextExt fn = ".pdf" → env.pdfOp = Except.ok () →
      ((read_ocr_results_from_gcs env.pdfBlobs).full_text = "" ∨
        (read_ocr_results_from_gcs env.pdfBlobs).error ≠ none) →
      isOcrStageFailure (runTask env fn).1 ∧ (runTask env fn).2 = false) := by
  have hnup : ¬ env.upload.success = false := by simp [hup]
  constructor
  · intro hmem hbad
    have hne : splitextExt fn ≠ ".pdf" := by
      intro hcontra
      rw [hcontra] at hmem
      simp [imageExts] at hmem
    cases herr : (detect_document_text env.image).error with
    | some err =>
        have hstep : ocrStep env (splitextExt fn) = .error ("Image OCR failed: " ++ err) := by
          unfold ocrStep
          rw [if_neg hne, if_pos hmem, herr]
        unfold runTask
        rw [if_neg hnup, hstep]
        exact ⟨Or.inr (Or.inr (Or.inl ⟨err, rfl⟩)), rfl⟩
    | none =>
        have hft : (detect_document_text env.image).full_text = "" :=
          hbad.resolve_right (by simp [herr])
        have hstep : ocrStep env (splitextExt fn) = .ok "" := by
          unfold ocrStep
          rw [if_neg hne, if_pos hmem, herr, hft]
        unfold runTask
        rw [if_neg hnup, hstep]
        exact ⟨Or.inl rfl, rfl⟩
  · intro hpdf hop hbad
    have hft : (read_ocr_results_from_gcs env.pdfBlobs).full_text = "" :=
      hbad.elim id (read_error_imp_empty_text env.pdfBlobs)
    have hstep : ocrStep env (splitextExt fn) = .ok "" := by
      unfold ocrStep
      rw [if_pos hpdf, hop, hft]
    unfold runTask
    rw [if_neg hnup, hstep]
    exact ⟨Or.inl rfl, rfl⟩

/-- C2 witness: a successful upload of `blank.png` whose OCR response carries no
text; the job fails with the OCR-stage message and generation is never invoked. -/
theorem c2_witness :
    isOcrStageFailure (runTask c2EnvW "blank.png").1 ∧ (runTask c2EnvW "blank.png").2 = false :=
  (c2_empty_or_error_fails_ocr c2EnvW "blank.png" rfl).1 (by decide) (Or.inl rfl)

/-! ## C6 -/

theorem jWord_roundtrip (w : VWord) : jWordToData (vWordToJ w) = vWordToData w := by
  simp [jWordToData, vWordToJ, vWordToData, vSymbolToJ, List.map_map, Function.comp_def]

theorem jParagraph_roundtrip (p : VParagraph) :
    jParagraphToData (vParagraphToJ p) = vParagraphToData p := by
  simp [jParagraphToData, vParagraphToJ, vParagraphToData, vWordToJ, vSymbolToJ,
    List.map_map, List.flatMap_map, List.map_flatMap, Function.comp_def, jWord_roundtrip]
  exact fun a _ => jWord_roundtrip a

theorem jBlock_roundtrip (b : VBlock) : jBlockToData (vBlockToJ b) = vBlockToData b := by
  simp [jBlockToData, vBlockToJ, vBlockToData, vParagraphToJ, vWordToJ, vSymbolToJ,
    List.map_map, List.flatMap_map, List.map_flatMap, Function.comp_def, jParagraph_roundtrip]
  exact fun a _ => jParagraph_roundtrip a

theorem jPage_roundtrip (pg : VPage) : jPageToData (vPageToJ pg) = vPageToData pg := by
  simp [jPageToData, vPageToJ, vPageToData, List.map_map, Function.comp_def, jBlock_roundtrip]

/-- C6: the asynchronous (PDF) path delivers the same nested `structured_data` shape
as the synchronous (image) path.  In the embedding both paths construct the same
page → block → paragraph → word types with the same fields per level (see
`PageData`/`BlockData`/`ParagraphData`/`WordData`), and every `structured_data` the
synchronous path can produce is reproduced exactly by the asynchronous path from a
result object carrying the JSON the provider writes for that response — so a
downstream consumer cannot distinguish the document's origin by shape. -/
theorem c6_async_reproduces_sync_shape (r : VisionResponse) :
    ∃ blobs : List GcsBlob,
      (read_ocr_results_from_gcs blobs).structured_data =
        (detect_document_text (Except.ok r)).structured_data := by
  cases hA : r.textAnno with
  | none =>
      refine ⟨[], ?_⟩
      simp [read_ocr_results_from_gcs, jsonResultBlobs, detect_document_text, hA]
  | some a =>
      refine ⟨[⟨"ocr_results/run/output-1.json",
        .parsed [⟨some ⟨a.text, some (a.pages.map vPageToJ)⟩⟩]⟩], ?_⟩
      have hname : endsWithStr "ocr_results/run/output-1.json" ".json" = true := by decide
      simp [read_ocr_results_from_gcs, jsonResultBlobs, List.filter_cons, hname,
        detect_document_text, hA, blobPages, respPages, List.map_map, Function.comp_def,
        jPage_roundtrip]

/-! ## C8 -/

theorem sync_page_words (ps : List VPage) :
    ((ps.map vPageToData).flatMap wordTextsOfPage).flatMap wsFree =
      (ps.flatMap vPageSymbolTexts).flatMap wsFree := by
  simp only [wordTextsOfPage, vPageToData, vBlockToData, vParagraphToData, vWordToData,
    vPageSymbolTexts, List.flatMap_map, List.map_map, List.flatMap_assoc, Function.comp_def]
  apply flatMap_congr_on
  intro pg _
  apply flatMap_congr_on
  intro b _
  apply flatMap_congr_on
  intro pa _
  apply flatMap_congr_on
  intro w _
  rw [wsFree_concatAll]
  simp [List.flatMap_map, Function.comp_def]

theorem async_page_words (ps : List JPage) :
    ((ps.map jPageToData).flatMap wordTextsOfPage).flatMap wsFree =
      (ps.flatMap jPageSymbolTexts).flatMap wsFree := by
  simp only [wordTextsOfPage, jPageToData, jBlockToData, jParagraphToData, jWordToData,
    jPageSymbolTexts, List.flatMap_map, List.map_map, List.flatMap_assoc, Function.comp_def]
  apply flatMap_congr_on
  intro pg _
  apply flatMap_congr_on
  intro b _
  apply flatMap_congr_on
  intro pa _
  apply flatMap_congr_on
  intro w _
  rw [wsFree_concatAll]
  simp [List.flatMap_map, Function.comp_def]

/-- One coherent response contributes the same whitespace-free characters to the
combined text as its reconstructed pages contribute word texts. -/
theorem resp_words_agree (jr : JResponse) (a : JAnno) (hJ : jr.textAnno = some a)
    (hc : jAnnoCoherent a) :
    wsFree a.text = ((respPages jr).flatMap wordTextsOfPage).flatMap wsFree := by
  unfold jAnnoCoherent at hc
  cases hps : a.pages with
  | none =>
      rw [hps] at hc
      simpa [respPages, hJ, hps, wsFree, concatAll] using hc
  | some ps =>
      rw [hps] at hc
      simp only [Option.getD_some] at hc
      simp only [respPages, hJ, hps]
      rw [hc, wsFree_concatAll]
      exact (async_page_words ps).symm

theorem blob_words_agree (rs : List JResponse)
    (h : ∀ jr ∈ rs, ∀ a, jr.textAnno = some a → jAnnoCoherent a) :
    (rs.filterMap (fun r => r.textAnno.map (·.text))).flatMap wsFree =
      ((rs.flatMap respPages).flatMap wordTextsOfPage).flatMap wsFree := by
  induction rs with
  | nil => rfl
  | cons jr rest ih =>
      have hrest : ∀ x ∈ rest, ∀ a, x.textAnno = some a → jAnnoCoherent a :=
        fun x hx => h x (by simp [hx])
      cases hJ : jr.textAnno with
      | none =>
          simp only [List.filterMap_cons, hJ, Option.map_none', List.flatMap_cons,
            List.flatMap_append]
          rw [ih hrest]
          simp [respPages, hJ]
      | some a =>
          have hc := h jr (by simp) a hJ
          simp only [List.filterMap_cons, hJ, Option.map_some', List.flatMap_cons,
            List.flatMap_append]
          rw [ih hrest, resp_words_agree jr a hJ hc]

/-- C8: on either OCR path, when every provider annotation is coherent (its rendered
`text` agrees with its own nested symbols up to whitespace — the Vision API's
documented contract for `fullTextAnnotation`), the produced Extraction Result's
`full_text` equals, up to whitespace normalization, the in-order concatenation of
the text of every word in every paragraph in every block in every page of
`structured_data`; the two fields never disagree on content.  (When
`structured_data` is empty both sides degenerate to the whitespace content, so the
statement needs no non-emptiness hypothesis.) -/
theorem c8_full_text_agrees_with_words (r : VisionResponse) (blobs : List GcsBlob)
    (hr : ∀ a, r.textAnno = some a → annoCoherent a)
    (hb : ∀ b ∈ blobs, ∀ rs, b.parse = .parsed rs →
      ∀ jr ∈ rs, ∀ a, jr.textAnno = some a → jAnnoCoherent a) :
    wsFree (detect_document_text (Except.ok r)).full_text =
      wsFree (allWordsText (detect_document_text (Except.ok r)).structured_data) ∧
    wsFree (read_ocr_results_from_gcs blobs).full_text =
      wsFree (allWordsText (read_ocr_results_from_gcs blobs).structured_data) := by
  constructor
  · cases hA : r.textAnno with
    | none => simp [detect_document_text, hA, allWordsText, wsFree, concatAll]
    | some a =>
        have hc := hr a hA
        simp only [detect_document_text, hA]
        unfold annoCoherent at hc
        rw [hc]
        unfold allWordsText
        rw [wsFree_concatAll, wsFree_concatAll]
        exact (sync_page_words a.pages).symm
  · unfold read_ocr_results_from_gcs
    cases he : (jsonResultBlobs blobs).isEmpty with
    | true =>
        rw [if_pos he]
        simp [allWordsText, wsFree, concatAll]
    | false =>
        rw [if_neg (by simp [he])]
        dsimp only
        rw [wsFree_joinWith_nl]
        unfold allWordsText
        rw [wsFree_concatAll]
        simp only [List.flatMap_assoc]
        apply flatMap_congr_on
        intro b hbmem
        have hbb : b ∈ blobs := List.mem_of_mem_filter hbmem
        cases hp : b.parse with
        | malformed => simp [blobTexts, blobPages, hp]
        | parsed rs =>
            have hresp := fun jr hjr => hb b hbb rs hp jr hjr
            simp only [blobTexts, blobPages, hp]
            simpa [List.flatMap_assoc] using blob_words_agree rs hresp

/-- C8 witness: the coherence hypotheses and the conclusion at a concrete one-word
response ("HI") and a concrete one-result-object listing ("OK"). -/
theorem c8_full_text_agrees_with_words_witness :
    wsFree (detect_document_text (Except.ok c8Resp)).full_text =
      wsFree (allWordsText (detect_document_text (Except.ok c8Resp)).structured_data) ∧
    wsFree (read_ocr_results_from_gcs c8Blobs).full_text =
      wsFree (allWordsText (read_ocr_results_from_gcs c8Blobs).structured_data) :=
  c8_full_text_agrees_with_words c8Resp c8Blobs
    (by
      intro a ha
      simp only [c8Resp] at ha
      cases ha
      unfold annoCoherent
      decide)
    (by
      intro b hb rs hrs jr hjr a ha
      simp only [c8Blobs, List.mem_singleton] at hb
      subst hb
      injection hrs with h1
      subst h1
      simp only [List.mem_singleton] at hjr
      subst hjr
      injection ha with h2
      subst h2
      unfold jAnnoCoherent
      decide)
